import Mathlib

/-
Verification of the adapter layer in scipy/ndimage/src/nd_image.c: a shallow
embedding of the array-coercion helpers (satisfies, NA_OutputArray,
NA_IoArray, NI_ObjectToLongSequenceAndLength), the Python-callback
trampolines (Py_Filter1DFunc, Py_FilterFunc, Py_Map), the find_objects
wrapper (Py_FindObjects) and the incremental-erosion handle check
(Py_BinaryErosion2), together with theorems about their contracts.
-/

namespace NdImage

/-- An ndarray value as seen by the adapter layer: its element-type tag, the
layout flags the coercion helpers inspect, an identifier of its backing
buffer (two views alias the same storage exactly when their buffer
identifiers agree), its shape and its element data. -/
structure ArrayObj where
  typeTag : Nat
  byteswapped : Bool
  aligned : Bool
  contiguous : Bool
  writable : Bool
  bufferId : Nat
  dims : List Nat
  data : List ℚ
deriving DecidableEq

/-- A requirement word passed to the coercion helpers: the flag bits of the
requires argument that the code inspects (NPY_ARRAY_C_CONTIGUOUS,
NPY_ARRAY_ALIGNED, NPY_ARRAY_NOTSWAPPED, NPY_ARRAY_WRITEABLE,
NPY_ARRAY_ENSURECOPY, NPY_ARRAY_UPDATEIFCOPY). -/
structure ReqSet where
  contiguous : Bool
  aligned : Bool
  notswapped : Bool
  writeable : Bool
  ensurecopy : Bool
  updateifcopy : Bool
deriving DecidableEq

/-- A host value handed to an adapter entry point: either an ndarray or some
other host object. -/
inductive PyValue where
  | array (a : ArrayObj)
  | nonArray (id : Nat)
deriving DecidableEq

/-- Models the type test in satisfies: the requested type is NPY_NOTYPE
(modelled as none, meaning any type), or PyArray_EquivTypenums holds between
the value type and the requested type (type-number equivalence modelled as
equality of type tags). -/
def typeOk (a : ArrayObj) (t : Option Nat) : Bool :=
  match t with
  | none => true
  | some tt => a.typeTag == tt

/-- Models the numpy macro PyArray_ISCARRAY, which checks the flag set
NPY_ARRAY_CARRAY (C-contiguous, aligned, writeable) together with
PyArray_ISNOTSWAPPED (native byte order). -/
def PyArray_ISCARRAY (a : ArrayObj) : Bool :=
  a.contiguous && a.aligned && a.writable && !a.byteswapped

/-- The compliance predicate of nd_image.c (function satisfies): a fully
canonical (CARRAY) value passes the flag checks outright; otherwise each
requested flag is checked in turn and ENSURECOPY forces failure; the type
test applies in both cases. -/
def satisfies (a : ArrayObj) (requirements : ReqSet) (t : Option Nat) : Bool :=
  let type_ok := typeOk a t
  if PyArray_ISCARRAY a then type_ok
  else if a.byteswapped && requirements.notswapped then false
  else if !a.aligned && requirements.aligned then false
  else if !a.contiguous && requirements.contiguous then false
  else if !a.writable && requirements.writeable then false
  else if requirements.ensurecopy then false
  else type_ok

/-- C1: the compliance predicate holds exactly when the type matches (or any
type was requested) and either the value is in fully canonical layout
(contiguous, aligned, native byte order, writable) — in which case every
requirement set is accepted, force-copy included, without inspecting the
individual flags — or every requested flag among no-byteswap, aligned,
contiguous and writable already holds and force-copy was not requested. -/
theorem satisfies_characterization :
    ∀ (a : ArrayObj) (req : ReqSet) (t : Option Nat),
      satisfies a req t = true ↔
        (typeOk a t = true ∧
          ((a.contiguous = true ∧ a.aligned = true ∧ a.byteswapped = false ∧
              a.writable = true) ∨
            ((req.notswapped = true → a.byteswapped = false) ∧
              (req.aligned = true → a.aligned = true) ∧
              (req.contiguous = true → a.contiguous = true) ∧
              (req.writeable = true → a.writable = true) ∧
              req.ensurecopy = false))) := by
  intro a req t
  obtain ⟨tt, bs, al, ct, wr, bid, dims, data⟩ := a
  obtain ⟨rc, ra, rn, rw, re, ru⟩ := req
  simp only [satisfies, PyArray_ISCARRAY]
  generalize typeOk ⟨tt, bs, al, ct, wr, bid, dims, data⟩ t = tk
  cases tk <;> cases bs <;> cases al <;> cases ct <;> cases wr <;> cases rc <;>
    cases ra <;> cases rn <;> cases rw <;> cases re <;> simp

/-- Witness for the C1 characterization at a concrete canonical array with a
force-copy requirement. -/
theorem satisfies_characterization_witness :
    satisfies ⟨7, false, true, true, true, 0, [2], [1, 2]⟩
      ⟨true, true, true, true, true, false⟩ none = true :=
  (satisfies_characterization ⟨7, false, true, true, true, 0, [2], [1, 2]⟩
    ⟨true, true, true, true, true, false⟩ none).mpr (by decide)

/-- Failure raised by NA_OutputArray (PyExc_TypeError, only writeable arrays
work for output), called NotWritableError in the external taxonomy. -/
inductive NAError where
  | notWritable
deriving DecidableEq

/-- Result of a successful NA_OutputArray call: the returned view, whether a
fresh temporary was allocated with PyArray_Empty, whether the
NPY_ARRAY_UPDATEIFCOPY write-back flag was enabled on it, whether its base
object was set to the source (PyArray_SetBaseObject), and whether the
NPY_ARRAY_WRITEABLE flag was cleared on the source. -/
structure OutputResult where
  view : ArrayObj
  shadowAllocated : Bool
  writeBackScheduled : Bool
  linkedToOrigin : Bool
  sourceWriteRevoked : Bool
deriving DecidableEq

/-- Models NA_OutputArray of nd_image.c: rejects values that are not writable
arrays; returns the argument itself when it satisfies the requirements;
otherwise allocates an empty temporary of the same shape (a fresh buffer,
modelled by a distinct buffer identifier; its initial contents are
unspecified, modelled as zeros), enables write-back on it, links it to the
source and clears the write flag of the source. -/
def NA_OutputArray (v : PyValue) (t : Option Nat) (requires : ReqSet) :
    Except NAError OutputResult :=
  match v with
  | .nonArray _ => .error .notWritable
  | .array a =>
    if !a.writable then .error .notWritable
    else if satisfies a requires t then
      .ok ⟨a, false, false, false, false⟩
    else
      let dtype := match t with | none => a.typeTag | some tt => tt
      .ok ⟨{ typeTag := dtype, byteswapped := false, aligned := true,
             contiguous := true, writable := true, bufferId := a.bufferId + 1,
             dims := a.dims,
             data := List.replicate a.data.length 0 }, true, true, true, true⟩

/-- C2: for an array already in fully canonical writable layout whose type
matches the request, NA_OutputArray returns that very array as the view —
the identical backing storage — allocating no temporary and scheduling no
write-back. -/
theorem NA_OutputArray_zero_copy :
    ∀ (a : ArrayObj) (t : Option Nat) (req : ReqSet),
      PyArray_ISCARRAY a = true → typeOk a t = true →
        NA_OutputArray (.array a) t req = .ok ⟨a, false, false, false, false⟩ := by
  intro a t req hc ht
  have hw : a.writable = true := by
    simp only [PyArray_ISCARRAY, Bool.and_eq_true] at hc
    exact hc.1.2
  have hs : satisfies a req t = true := by
    simp [satisfies, hc, ht]
  simp [NA_OutputArray, hw, hs]

/-- Witness for the zero-copy law at a concrete canonical array. -/
theorem NA_OutputArray_zero_copy_witness :
    NA_OutputArray (.array ⟨3, false, true, true, true, 5, [2], [1, 2]⟩) (some 3)
        ⟨true, true, true, true, false, false⟩ =
      .ok ⟨⟨3, false, true, true, true, 5, [2], [1, 2]⟩, false, false, false, false⟩ :=
  NA_OutputArray_zero_copy ⟨3, false, true, true, true, 5, [2], [1, 2]⟩ (some 3)
    ⟨true, true, true, true, false, false⟩ (by decide) (by decide)

/-- C3: NA_OutputArray fails with the not-writable error, producing no view,
whenever the source is not a writable array; and for a writable but
non-compliant source it allocates a fresh shadow temporary (a different
buffer), schedules write-back into the original, links the temporary to the
original and revokes the write permission of the original. -/
theorem NA_OutputArray_error_and_shadow :
    (∀ (id : Nat) (t : Option Nat) (req : ReqSet),
        NA_OutputArray (.nonArray id) t req = .error .notWritable) ∧
    (∀ (a : ArrayObj) (t : Option Nat) (req : ReqSet), a.writable = false →
        NA_OutputArray (.array a) t req = .error .notWritable) ∧
    (∀ (a : ArrayObj) (t : Option Nat) (req : ReqSet), a.writable = true →
        satisfies a req t = false →
        ∃ r, NA_OutputArray (.array a) t req = .ok r ∧
          r.shadowAllocated = true ∧ r.writeBackScheduled = true ∧
          r.linkedToOrigin = true ∧ r.sourceWriteRevoked = true ∧
          r.view.bufferId ≠ a.bufferId ∧ r.view.dims = a.dims) := by
  refine ⟨fun id t req => rfl, fun a t req hw => by simp [NA_OutputArray, hw], ?_⟩
  intro a t req hw hs
  refine ⟨⟨{ typeTag := match t with | none => a.typeTag | some tt => tt,
             byteswapped := false, aligned := true, contiguous := true,
             writable := true, bufferId := a.bufferId + 1, dims := a.dims,
             data := List.replicate a.data.length 0 }, true, true, true, true⟩,
          ?_, rfl, rfl, rfl, rfl, ?_, rfl⟩
  · simp [NA_OutputArray, hw, hs]
    cases t <;> rfl
  · simp

/-- Witness for the C3 theorem: a non-array source and a writable misaligned
array put through NA_OutputArray. -/
theorem NA_OutputArray_error_and_shadow_witness :
    NA_OutputArray (.nonArray 0) none ⟨false, true, true, false, false, false⟩ =
        .error .notWritable ∧
    NA_OutputArray (.array ⟨3, false, true, true, false, 5, [2], [1, 2]⟩) none
        ⟨false, true, true, false, false, false⟩ = .error .notWritable ∧
    ∃ r, NA_OutputArray (.array ⟨3, false, false, true, true, 5, [2], [1, 2]⟩) none
        ⟨false, true, true, false, false, false⟩ = .ok r ∧
      r.shadowAllocated = true ∧ r.writeBackScheduled = true ∧
      r.linkedToOrigin = true ∧ r.sourceWriteRevoked = true ∧
      r.view.bufferId ≠ (5 : Nat) ∧ r.view.dims = [2] :=
  ⟨NA_OutputArray_error_and_shadow.1 0 none ⟨false, true, true, false, false, false⟩,
   NA_OutputArray_error_and_shadow.2.1 ⟨3, false, true, true, false, 5, [2], [1, 2]⟩
     none ⟨false, true, true, false, false, false⟩ rfl,
   NA_OutputArray_error_and_shadow.2.2 ⟨3, false, false, true, true, 5, [2], [1, 2]⟩
     none ⟨false, true, true, false, false, false⟩ rfl (by decide)⟩

/-- Failures of the input/Io coercion path: conversion of a non-array source
under a write-back requirement, the numpy refusal to build a write-back
temporary for a read-only source, and the NA_IoArray guard for sources that
are returned as-is but are not writable. -/
inductive CoerceError where
  | typeConversion
  | readOnlyCopyBack
  | ioNotWritable
deriving DecidableEq

/-- Result of a successful input coercion: the view handed out, whether a
fresh copy of the source was made, whether a write-back into the source was
scheduled (NPY_ARRAY_UPDATEIFCOPY) and whether the write flag of the source
was cleared for the duration. -/
structure InputResult where
  view : ArrayObj
  copied : Bool
  writeBackScheduled : Bool
  sourceWriteRevoked : Bool
deriving DecidableEq

/-- Per-flag compliance test of the numpy conversion routine: no copy is
needed when the type matches, every requested layout flag already holds and
no copy was forced. -/
def noCopyNeeded (a : ArrayObj) (req : ReqSet) (t : Option Nat) : Bool :=
  typeOk a t &&
  (!req.notswapped || !a.byteswapped) &&
  (!req.aligned || a.aligned) &&
  (!req.contiguous || a.contiguous) &&
  (!req.writeable || a.writable) &&
  !req.ensurecopy

/-- The canonical copy the numpy conversion routine produces when the source
does not meet the requirements: a fresh contiguous aligned native writable
buffer holding the source data, converted to the requested type. -/
def canonicalCopy (a : ArrayObj) (t : Option Nat) : ArrayObj :=
  { typeTag := match t with | none => a.typeTag | some tt => tt,
    byteswapped := false, aligned := true, contiguous := true,
    writable := true, bufferId := a.bufferId + 1, dims := a.dims,
    data := a.data }

/-- Models the numpy routine PyArray_CheckFromAny (an external dependency of
nd_image.c) on the inputs the adapter hands it: an array meeting the type
and flag requirements is returned unchanged; otherwise a canonical copy is
made, and when the write-back-if-copy flag is among the requirements the
copy is refused for a read-only source, while for a writable source the
write-back is scheduled and the write flag of the source is cleared. A
non-array source under a write-back requirement cannot be converted. -/
def PyArray_CheckFromAny (v : PyValue) (t : Option Nat) (req : ReqSet) :
    Except CoerceError InputResult :=
  match v with
  | .nonArray _ => .error .typeConversion
  | .array a =>
    if noCopyNeeded a req t then
      .ok ⟨a, false, false, false⟩
    else if req.updateifcopy && !a.writable then
      .error .readOnlyCopyBack
    else
      .ok ⟨canonicalCopy a t, true, req.updateifcopy, req.updateifcopy⟩

/-- Models NA_InputArray of nd_image.c, which delegates to
PyArray_CheckFromAny (the descriptor argument is the requested type, or none
for NPY_NOTYPE). -/
def NA_InputArray (v : PyValue) (t : Option Nat) (req : ReqSet) :
    Except CoerceError InputResult :=
  PyArray_CheckFromAny v t req

/-- Models NA_IoArray of nd_image.c: converts through NA_InputArray with the
write-back-if-copy requirement added, then rejects a result that is not
writable (which happens exactly when the source was returned as-is). -/
def NA_IoArray (v : PyValue) (t : Option Nat) (requires : ReqSet) :
    Except CoerceError InputResult :=
  match NA_InputArray v t { requires with updateifcopy := true } with
  | .error e => .error e
  | .ok shadow =>
    if !shadow.view.writable then .error .ioNotWritable
    else .ok shadow

/-- Counterexample to C4 as stated: a non-compliant source (byteswapped
while native byte order is required) that is also read-only is not copied
into a shadow buffer with a scheduled copy-back — the coercion fails
outright, because a write-back temporary cannot be built over a read-only
source. -/
theorem NA_IoArray_readonly_noncompliant_cex :
    NA_IoArray (.array ⟨3, true, true, true, false, 5, [2], [1, 2]⟩) none
        ⟨false, true, true, false, false, false⟩ = .error .readOnlyCopyBack := by
  rfl

/-- C4 as amended: a fully compliant writable source is returned directly
with no copy and no write-back; a non-compliant writable source has its
contents copied into a fresh shadow buffer with a copy-back scheduled; a
compliant but non-writable source is rejected with the not-writable error;
and a non-compliant non-writable source fails with the read-only copy-back
error instead of receiving a shadow buffer. -/
theorem NA_IoArray_cases :
    ∀ (a : ArrayObj) (t : Option Nat) (req : ReqSet),
      (noCopyNeeded a { req with updateifcopy := true } t = true →
        a.writable = true →
        NA_IoArray (.array a) t req = .ok ⟨a, false, false, false⟩) ∧
      (noCopyNeeded a { req with updateifcopy := true } t = false →
        a.writable = true →
        NA_IoArray (.array a) t req =
          .ok ⟨canonicalCopy a t, true, true, true⟩ ∧
        (canonicalCopy a t).data = a.data ∧
        (canonicalCopy a t).bufferId ≠ a.bufferId) ∧
      (noCopyNeeded a { req with updateifcopy := true } t = true →
        a.writable = false →
        NA_IoArray (.array a) t req = .error .ioNotWritable) ∧
      (noCopyNeeded a { req with updateifcopy := true } t = false →
        a.writable = false →
        NA_IoArray (.array a) t req = .error .readOnlyCopyBack) := by
  intro a t req
  refine ⟨fun hc hw => ?_, fun hc hw => ⟨?_, rfl, by simp [canonicalCopy]⟩,
          fun hc hw => ?_, fun hc hw => ?_⟩ <;>
    simp [NA_IoArray, NA_InputArray, PyArray_CheckFromAny, hc, hw, canonicalCopy]

/-- Witness for the amended C4 theorem: each of the four cases applied to a
concrete array. -/
theorem NA_IoArray_cases_witness :
    NA_IoArray (.array ⟨3, false, true, true, true, 5, [2], [1, 2]⟩) none
        ⟨false, true, true, false, false, false⟩ =
      .ok ⟨⟨3, false, true, true, true, 5, [2], [1, 2]⟩, false, false, false⟩ ∧
    NA_IoArray (.array ⟨3, true, true, true, true, 5, [2], [1, 2]⟩) none
        ⟨false, true, true, false, false, false⟩ =
      .ok ⟨canonicalCopy ⟨3, true, true, true, true, 5, [2], [1, 2]⟩ none,
            true, true, true⟩ ∧
    NA_IoArray (.array ⟨3, false, true, true, false, 5, [2], [1, 2]⟩) none
        ⟨false, true, true, false, false, false⟩ = .error .ioNotWritable :=
  ⟨(NA_IoArray_cases ⟨3, false, true, true, true, 5, [2], [1, 2]⟩ none
      ⟨false, true, true, false, false, false⟩).1 (by decide) rfl,
   ((NA_IoArray_cases ⟨3, true, true, true, true, 5, [2], [1, 2]⟩ none
      ⟨false, true, true, false, false, false⟩).2.1 (by decide) rfl).1,
   (NA_IoArray_cases ⟨3, false, true, true, false, 5, [2], [1, 2]⟩ none
      ⟨false, true, true, false, false, false⟩).2.2.1 (by decide) rfl⟩

/-- A host object handed to NI_ObjectToLongSequenceAndLength: either a
sequence that converts to a native-integer C-array, or an object whose
conversion fails (for example a sequence of non-integral elements), in which
case NA_InputArray returns null with an error set. -/
inductive SeqConvInput where
  | intSeq (xs : List Int)
  | badObj (id : Nat)
deriving DecidableEq

/-- Models the NA_InputArray call made by NI_ObjectToLongSequenceAndLength
with type NPY_INTP and requirements NPY_ARRAY_CARRAY: the element list of
the converted array, or none when the conversion fails. -/
def NA_InputArray_intpCarray : SeqConvInput → Option (List Int)
  | .intSeq xs => some xs
  | .badObj _ => none

/-- Outcome of NI_ObjectToLongSequenceAndLength: a freshly allocated owned
native-integer buffer together with the returned length; the allocation
failure path (PyErr_NoMemory, length -1); or a dereference of the null
conversion result. -/
inductive SeqResult where
  | ok (seq : List Int) (length : Int)
  | allocFail
  | nullDeref
deriving DecidableEq

/-- Models NI_ObjectToLongSequenceAndLength of nd_image.c. The code does not
test the result of NA_InputArray for null before applying PyArray_SIZE and
PyArray_DATA to it, so a failed conversion reaches a null-pointer
dereference, modelled by the nullDeref outcome; a successful conversion is
copied element by element into a malloc buffer owned by the caller. -/
def NI_ObjectToLongSequenceAndLength (object : SeqConvInput) (allocOk : Bool) :
    SeqResult :=
  match NA_InputArray_intpCarray object with
  | none => .nullDeref
  | some xs => if allocOk then .ok xs (xs.length : Int) else .allocFail

/-- C5: the successful path returns a fresh copy with the same elements and
the length of the sequence, and the allocation failure path reports the
failure; but an input whose conversion to a native integer array fails is
not reported as a conversion error — the code dereferences the null
conversion result (a crash), contradicting the stated error contract. -/
theorem NI_ObjectToLongSequenceAndLength_spec :
    (∀ xs : List Int,
        NI_ObjectToLongSequenceAndLength (.intSeq xs) true =
          .ok xs (xs.length : Int)) ∧
    (∀ xs : List Int,
        NI_ObjectToLongSequenceAndLength (.intSeq xs) false = .allocFail) ∧
    (∀ id : Nat,
        NI_ObjectToLongSequenceAndLength (.badObj id) true = .nullDeref) := by
  exact ⟨fun xs => rfl, fun xs => rfl, fun id => rfl⟩

/- Host objects crossing the callback boundary, and the Python C-API
operations on them that the trampolines use. -/

/-- A host value as the trampolines see it: a number, a tuple, a
one-dimensional float array, an opaque state capsule, or some other
non-numeric object. -/
inductive PyObj where
  | num (q : ℚ)
  | tuple (xs : List PyObj)
  | arr (xs : List ℚ)
  | capsule (id : Nat)
  | other (id : Nat)

/-- Models PyFloat_AsDouble: succeeds on a number; on a one-element array it
yields that element (the host converts size-one arrays to scalars); on any
other object it sets a type error, modelled by none. -/
def PyFloat_AsDouble : PyObj → Option ℚ
  | .num q => some q
  | .arr [x] => some x
  | _ => none

/-- One invocation the trampoline issues to the host callable: the complete
positional argument list and the named-argument container passed through. -/
structure CallRecord where
  pos : List PyObj
  kw : PyObj

/-- Outcome of the sliding-window trampoline Py_Filter1DFunc: the status it
reports to the engine (1 on success, 0 once an error is pending), the
invocations it issued, and the output line copied back on success. -/
structure Filter1DRun where
  status : Bool
  calls : List CallRecord
  oline : Option (List ℚ)

/-- Models Py_Filter1DFunc of nd_image.c: the input line is wrapped into a
fresh array, a zero-initialized output array of the requested length is
created, the pair is concatenated with the declared extra positional
arguments, the host callable is invoked with the declared extra named
arguments, and on success the contents the callable left in the output
array are copied back to the native output line. The callable is modelled
as returning its result object together with the final contents of the
output array it was handed, or none when it raises. -/
def Py_Filter1DFunc (f : List PyObj → PyObj → Option (PyObj × List ℚ))
    (extra_arguments : List PyObj) (extra_keywords : PyObj)
    (iline : List ℚ) (olen : Nat) : Filter1DRun :=
  let py_ibuffer := PyObj.arr iline
  let py_obuffer := PyObj.arr (List.replicate olen 0)
  let args := [py_ibuffer, py_obuffer] ++ extra_arguments
  match f args extra_keywords with
  | none => ⟨false, [⟨args, extra_keywords⟩], none⟩
  | some (_rv, po) =>
      ⟨true, [⟨args, extra_keywords⟩],
        some ((List.range olen).map fun ii => po.getD ii 0)⟩

/-- Outcome of the scalar-reducing trampoline Py_FilterFunc. -/
structure FilterRun where
  status : Bool
  calls : List CallRecord
  output : Option ℚ

/-- Models Py_FilterFunc of nd_image.c: the window buffer is wrapped into a
fresh array, concatenated with the declared extra positional arguments, the
host callable is invoked with the declared extra named arguments, and its
return value is converted with PyFloat_AsDouble into the scalar output; a
raise or a non-numeric return leaves an error pending, so the reported
status is failure and the written value is not treated as valid. -/
def Py_FilterFunc (f : List PyObj → PyObj → Option PyObj)
    (extra_arguments : List PyObj) (extra_keywords : PyObj)
    (buffer : List ℚ) : FilterRun :=
  let py_buffer := PyObj.arr buffer
  let args := [py_buffer] ++ extra_arguments
  match f args extra_keywords with
  | none => ⟨false, [⟨args, extra_keywords⟩], none⟩
  | some rv =>
      match PyFloat_AsDouble rv with
      | none => ⟨false, [⟨args, extra_keywords⟩], none⟩
      | some q => ⟨true, [⟨args, extra_keywords⟩], some q⟩

/-- Models the coordinate-reading loop of Py_Map: for each input dimension,
PyTuple_GetItem demands a tuple long enough (otherwise an index or system
error is set) and PyFloat_AsDouble demands a numeric entry; the loop stops
at the first failure. Entries beyond the input rank are never read. -/
def readCoords (rets : PyObj) (irank : Nat) : Option (List ℚ) :=
  (List.range irank).mapM fun ii =>
    match rets with
    | .tuple xs => (xs.get? ii).bind PyFloat_AsDouble
    | _ => none

/-- Outcome of the coordinate-mapping trampoline Py_Map. -/
structure MapRun where
  status : Bool
  calls : List CallRecord
  icoor : Option (List ℚ)

/-- Models Py_Map of nd_image.c: the output-space coordinates are packed
into a tuple of numbers, concatenated with the declared extra positional
arguments, the host callable is invoked with the declared extra named
arguments, and the returned object is read element by element as the
input-space coordinates. -/
def Py_Map (f : List PyObj → PyObj → Option PyObj)
    (extra_arguments : List PyObj) (extra_keywords : PyObj)
    (ocoor : List Int) (irank : Nat) : MapRun :=
  let coors := PyObj.tuple (ocoor.map fun k => PyObj.num (Int.cast k))
  let args := [coors] ++ extra_arguments
  match f args extra_keywords with
  | none => ⟨false, [⟨args, extra_keywords⟩], none⟩
  | some rets =>
      match readCoords rets irank with
      | none => ⟨false, [⟨args, extra_keywords⟩], none⟩
      | some ic => ⟨true, [⟨args, extra_keywords⟩], some ic⟩

/-- C7: each trampoline invokes the host callable exactly once per
trampoline call, with the native window or coordinate data first, followed
by exactly the declared extra positional arguments in order, and with
exactly the declared extra named arguments — the call log is completely
determined. -/
theorem trampoline_call_shape :
    (∀ f ea kw iline olen,
        (Py_Filter1DFunc f ea kw iline olen).calls =
          [⟨[PyObj.arr iline, PyObj.arr (List.replicate olen 0)] ++ ea, kw⟩]) ∧
    (∀ f ea kw buffer,
        (Py_FilterFunc f ea kw buffer).calls =
          [⟨[PyObj.arr buffer] ++ ea, kw⟩]) ∧
    (∀ f ea kw ocoor irank,
        (Py_Map f ea kw ocoor irank).calls =
          [⟨[PyObj.tuple (ocoor.map fun k => PyObj.num (Int.cast k))] ++ ea, kw⟩]) := by
  refine ⟨fun f ea kw iline olen => ?_, fun f ea kw buffer => ?_,
          fun f ea kw ocoor irank => ?_⟩
  · cases hf : f (PyObj.arr iline :: PyObj.arr (List.replicate olen 0) :: ea) kw with
    | none => simp [Py_Filter1DFunc, hf]
    | some rp => simp [Py_Filter1DFunc, hf]
  · cases hf : f (PyObj.arr buffer :: ea) kw with
    | none => simp [Py_FilterFunc, hf]
    | some rv => cases hd : PyFloat_AsDouble rv <;> simp [Py_FilterFunc, hf, hd]
  · cases hf : f (PyObj.tuple (ocoor.map fun k => PyObj.num (Int.cast k)) :: ea) kw with
    | none => simp [Py_Map, hf]
    | some rets => cases hr : readCoords rets irank <;> simp [Py_Map, hf, hr]

/-- A host callable that ignores its arguments and returns a two-coordinate
tuple, used against an input rank of one: a wrong-arity coordinate result. -/
def wrongArityMapFn : List PyObj → PyObj → Option PyObj :=
  fun _ _ => some (.tuple [.num 0, .num 0])

/-- Counterexample to C8 as stated: a coordinate-mapping callable that
returns a coordinate tuple of the wrong arity (two entries for input rank
one) does not make the trampoline report failure — Py_Map reports success
and uses the first entry, because only a missing entry raises a host-level
error; surplus entries are never read. -/
theorem Py_Map_wrong_arity_cex :
    (Py_Map wrongArityMapFn [] (PyObj.other 0) [0] 1).status = true ∧
    (Py_Map wrongArityMapFn [] (PyObj.other 0) [0] 1).icoor = some [0] := by
  constructor <;> rfl

/-- Modelled from the spec: the engine kernels that drive the trampolines
(NI_GenericFilter1D, NI_GenericFilter, NI_GeometricTransform in ni_filters.c
and ni_interpolation.c, which are not under src/) issue one invocation per
required output element, check the status after each invocation and, on the
first failure, stop issuing further invocations and propagate the failure.
The driver is modelled over the per-window status of the trampoline,
returning how many invocations were issued and whether the kernel
succeeded. -/
def kernelDrive {α : Type} (status : α → Bool) : List α → Nat × Bool
  | [] => (0, true)
  | w :: ws =>
      if status w then
        ((kernelDrive status ws).1 + 1, (kernelDrive status ws).2)
      else (1, false)

/-- C8 as amended: each trampoline reports success exactly when no
host-level error occurred during the invocation — for the window trampoline
a raise by the callable, for the scalar-reducing trampoline additionally a
non-numeric return value, and for the coordinate-mapping trampoline
additionally a missing (tuple too short or result not a tuple) or
non-numeric coordinate entry; a failed invocation publishes no result
values; and the kernel, which checks the status after every invocation,
stops at the first failure — it issues exactly the invocations up to and
including the first failing one — and succeeds only when every invocation
succeeded. -/
theorem trampoline_failure_policy :
    (∀ f ea kw iline olen,
        ((Py_Filter1DFunc f ea kw iline olen).status = true ↔
          ∃ rp, f ([PyObj.arr iline, PyObj.arr (List.replicate olen 0)] ++ ea) kw
              = some rp) ∧
        ((Py_Filter1DFunc f ea kw iline olen).status = false →
          (Py_Filter1DFunc f ea kw iline olen).oline = none)) ∧
    (∀ f ea kw buffer,
        ((Py_FilterFunc f ea kw buffer).status = true ↔
          ∃ rv q, f ([PyObj.arr buffer] ++ ea) kw = some rv ∧
            PyFloat_AsDouble rv = some q) ∧
        ((Py_FilterFunc f ea kw buffer).status = false →
          (Py_FilterFunc f ea kw buffer).output = none)) ∧
    (∀ f ea kw ocoor irank,
        ((Py_Map f ea kw ocoor irank).status = true ↔
          ∃ rets ic,
            f ([PyObj.tuple (ocoor.map fun k => PyObj.num (Int.cast k))] ++ ea) kw
                = some rets ∧
            readCoords rets irank = some ic) ∧
        ((Py_Map f ea kw ocoor irank).status = false →
          (Py_Map f ea kw ocoor irank).icoor = none)) ∧
    (∀ (α : Type) (status : α → Bool) (ws : List α),
        kernelDrive status ws =
          (min ws.length ((ws.takeWhile status).length + 1), ws.all status)) := by
  refine ⟨fun f ea kw iline olen => ?_, fun f ea kw buffer => ?_,
          fun f ea kw ocoor irank => ?_, fun α status ws => ?_⟩
  · cases hf : f (PyObj.arr iline :: PyObj.arr (List.replicate olen 0) :: ea) kw with
    | none => simp [Py_Filter1DFunc, hf]
    | some rp => simp [Py_Filter1DFunc, hf]
  · cases hf : f (PyObj.arr buffer :: ea) kw with
    | none => simp [Py_FilterFunc, hf]
    | some rv => cases hd : PyFloat_AsDouble rv <;> simp [Py_FilterFunc, hf, hd]
  · cases hf : f (PyObj.tuple (ocoor.map fun k => PyObj.num (Int.cast k)) :: ea) kw with
    | none => simp [Py_Map, hf]
    | some rets => cases hr : readCoords rets irank <;> simp [Py_Map, hf, hr]
  · induction ws with
    | nil => simp [kernelDrive]
    | cons w ws ih =>
      cases hw : status w with
      | true =>
        simp [kernelDrive, hw, ih, List.takeWhile_cons, Nat.succ_min_succ]
      | false =>
        simp [kernelDrive, hw, List.takeWhile_cons,
              Nat.min_eq_right (Nat.succ_le_succ (Nat.zero_le _))]

/-- Witness for the amended C8 theorem: a failing scalar-reducing invocation
(the callable returns a non-numeric object) and a kernel run that stops
after that first failure. -/
theorem trampoline_failure_policy_witness :
    (Py_FilterFunc (fun _ _ => some (PyObj.other 7)) [] (PyObj.other 0) [1]).status
        = false ∧
    (Py_FilterFunc (fun _ _ => some (PyObj.other 7)) [] (PyObj.other 0) [1]).output
        = none ∧
    kernelDrive
        (fun b => (Py_FilterFunc (fun _ _ => some (PyObj.other 7)) []
          (PyObj.other 0) b).status) [[1], [2], [3]] = (1, false) := by
  have h1 : (Py_FilterFunc (fun _ _ => some (PyObj.other 7)) [] (PyObj.other 0)
      [1]).status = false := by
    have hiff := ((trampoline_failure_policy.2.1
      (fun _ _ => some (PyObj.other 7)) [] (PyObj.other 0) [1]).1)
    cases hst : (Py_FilterFunc (fun _ _ => some (PyObj.other 7)) [] (PyObj.other 0)
        [1]).status with
    | false => rfl
    | true =>
      obtain ⟨rv, q, hrv, hq⟩ := hiff.mp hst
      cases Option.some.inj hrv
      simp [PyFloat_AsDouble] at hq
  refine ⟨h1, trampoline_failure_policy.2.1
      (fun _ _ => some (PyObj.other 7)) [] (PyObj.other 0) [1] |>.2 h1, ?_⟩
  have h4 := trampoline_failure_policy.2.2.2 (List ℚ)
      (fun b => (Py_FilterFunc (fun _ _ => some (PyObj.other 7)) []
        (PyObj.other 0) b).status) [[1], [2], [3]]
  rw [h4]
  rfl

/-- Failure raised by the incremental-erosion wrapper: the argument
conversion failed, or the state argument is not a capsule (PyExc_RuntimeError,
cannot convert CObject), called InvalidHandleError in the external
taxonomy. -/
inductive Erosion2Error where
  | parse
  | invalidHandle
deriving DecidableEq

/-- Observable outcome of a Py_BinaryErosion2 call at the adapter layer:
whether the engine kernel NI_BinaryErosion2 was invoked (all state mutation
happens inside that call) and the failure reported, if any. -/
structure Erosion2Run where
  engineInvoked : Bool
  err : Option Erosion2Error
deriving DecidableEq

/-- Tests whether a host object is an opaque state capsule, as
NpyCapsule_Check (PyCapsule_CheckExact) does. -/
def NpyCapsule_Check : PyObj → Bool
  | .capsule _ => true
  | _ => false

/-- Models Py_BinaryErosion2 of nd_image.c after argument parsing (parseOk
stands for the success of the array, structuring element, mask, origin and
integer conversions): when the state argument is a capsule the engine kernel
is invoked on its payload; otherwise a runtime error is raised and the
engine kernel is never reached. -/
def Py_BinaryErosion2 (parseOk : Bool) (cobj : PyObj) : Erosion2Run :=
  if !parseOk then ⟨false, some .parse⟩
  else if NpyCapsule_Check cobj then ⟨true, none⟩
  else ⟨false, some .invalidHandle⟩

/-- C9: a state argument that is not an opaque state capsule makes the
incremental binary-erosion wrapper fail with the invalid-handle error
without invoking the engine kernel, hence without mutating any state. -/
theorem Py_BinaryErosion2_invalid_handle :
    ∀ cobj : PyObj, NpyCapsule_Check cobj = false →
      Py_BinaryErosion2 true cobj = ⟨false, some .invalidHandle⟩ := by
  intro cobj h
  simp [Py_BinaryErosion2, h]

/-- Witness for C9: a plain non-capsule object as the state argument. -/
theorem Py_BinaryErosion2_invalid_handle_witness :
    Py_BinaryErosion2 true (PyObj.other 3) = ⟨false, some .invalidHandle⟩ :=
  Py_BinaryErosion2_invalid_handle (PyObj.other 3) rfl

/- The find_objects wrapper. -/

/-- A two-dimensional labelled input array, as in the specification example. -/
def Grid : Type := List (List Int)

/-- The coordinates of the cells carrying a given label. -/
def labelCells (g : Grid) (l : Int) : List (Nat × Nat) :=
  (g.enum.map fun rc =>
    rc.2.enum.filterMap fun cv =>
      if cv.2 = l then some (rc.1, cv.1) else none).join

/-- The least element of a nonempty list of naturals, with the first element
as the start of the fold. -/
def natMinOf (x : Nat) (xs : List Nat) : Nat := xs.foldl Nat.min x

/-- The greatest element of a nonempty list of naturals. -/
def natMaxOf (x : Nat) (xs : List Nat) : Nat := xs.foldl Nat.max x

/-- Modelled from the spec: the bounding box computed by NI_FindObjects
(ni_measure.c, which is not under src/) for one label — the smallest box
covering the voxels of that label, as start coordinates and exclusive end
coordinates, or none when the label has no voxels. -/
def bbox (g : Grid) (l : Int) : Option (Nat × Nat × Nat × Nat) :=
  match labelCells g l with
  | [] => none
  | c :: cs =>
      some (natMinOf c.1 (cs.map Prod.fst), natMinOf c.2 (cs.map Prod.snd),
            natMaxOf c.1 (cs.map Prod.fst) + 1, natMaxOf c.2 (cs.map Prod.snd) + 1)

/-- Modelled from the spec: the flat regions array NI_FindObjects fills, as
an index function with the per-label stride 2 * ndim = 4 used by the
wrapper: entries 0 and 1 of a block are the start row and column, entries 2
and 3 the exclusive end row and column, and a label with no voxels gets the
negative absent marker. -/
def regionsFn (g : Grid) (k : Nat) : Int :=
  match bbox g (((k / 4 : Nat) : Int) + 1) with
  | none => -1
  | some (r0, c0, r1, c1) => [(r0 : Int), (c0 : Int), (r1 : Int), (c1 : Int)].getD (k % 4) (-1)

/-- A slice pair for one dimension: start and exclusive end. -/
def Slice : Type := Int × Int

/-- Models Py_FindObjects of nd_image.c on two-dimensional inputs: a
negative max_label is clamped to zero; the result list has one entry per
label, built from the regions block of that label — a tuple of per-dimension
slices when the block start is nonnegative, the absent marker otherwise. -/
def Py_FindObjects (g : Grid) (max_label : Int) : List (Option (Slice × Slice)) :=
  let ml := if max_label < 0 then 0 else max_label
  (List.range ml.toNat).map fun ii =>
    let idx := 4 * ii
    if regionsFn g idx ≥ 0 then
      some ((regionsFn g idx, regionsFn g (idx + 2)),
            (regionsFn g (idx + 1), regionsFn g (idx + 3)))
    else none

/-- The labelled array of the specification example. -/
def exampleGrid : Grid := [[0, 1, 1], [0, 0, 2]]

/-- C6: on the example array, max_label = 2 yields the bounding boxes of
labels 1 and 2, and max_label = 3 appends the absent marker for the empty
label 3; in general the result has exactly max_label entries in label
order, with the absent marker exactly at the positions whose label has no
voxels. -/
theorem Py_FindObjects_spec :
    Py_FindObjects exampleGrid 2 =
      [some ((0, 1), (1, 3)), some ((1, 2), (2, 3))] ∧
    Py_FindObjects exampleGrid 3 =
      [some ((0, 1), (1, 3)), some ((1, 2), (2, 3)), none] ∧
    (∀ (g : Grid) (n : Int), 0 ≤ n →
      (Py_FindObjects g n).length = n.toNat ∧
      ∀ i : Nat, i < n.toNat →
        ((Py_FindObjects g n).get? i = some none ↔
          labelCells g (((i : Nat) : Int) + 1) = [])) := by
  refine ⟨by rfl, by rfl, ?_⟩
  intro g n hn
  have hnn : ¬ n < 0 := not_lt.mpr hn
  constructor
  · simp [Py_FindObjects, hnn]
  · intro i hi
    have hdiv : 4 * i / 4 = i := by omega
    have hmod : 4 * i % 4 = 0 := by omega
    have hget : (Py_FindObjects g n).get? i =
        some (if regionsFn g (4 * i) ≥ 0 then
          some ((regionsFn g (4 * i), regionsFn g (4 * i + 2)),
                (regionsFn g (4 * i + 1), regionsFn g (4 * i + 3)))
        else none) := by
      simp only [Py_FindObjects, if_neg hnn, List.get?_map, List.get?_range hi]
      rfl
    rw [hget]
    cases hc : labelCells g (((i : Nat) : Int) + 1) with
    | nil =>
      have hr : regionsFn g (4 * i) = -1 := by
        simp only [regionsFn, hdiv, hmod, bbox, hc]
      rw [hr]
      simp [hc]
    | cons c cs =>
      have hr : regionsFn g (4 * i) =
          ((natMinOf c.1 (cs.map Prod.fst) : Nat) : Int) := by
        simp only [regionsFn, hdiv, hmod, bbox, hc]
        rfl
      rw [hr]
      simp [hc]

/-- Witness for the general part of the C6 theorem at the example array with
max_label = 3, exhibiting the length and the absent marker of label 3. -/
theorem Py_FindObjects_spec_witness :
    (Py_FindObjects exampleGrid 3).length = (3 : Int).toNat ∧
    ((Py_FindObjects exampleGrid 3).get? 2 = some none ↔
      labelCells exampleGrid (((2 : Nat) : Int) + 1) = []) :=
  ⟨(Py_FindObjects_spec.2.2 exampleGrid 3 (by decide)).1,
   (Py_FindObjects_spec.2.2 exampleGrid 3 (by decide)).2 2 (by decide)⟩

/-- C10: for every labelled input and every max_label at most zero, negative
values included, find_objects succeeds and returns the empty sequence — the
negative bound is clamped to zero rather than reported as an error. -/
theorem Py_FindObjects_nonpositive_max_label :
    ∀ (g : Grid) (n : Int), n ≤ 0 → Py_FindObjects g n = [] := by
  intro g n hn
  have : (if n < 0 then 0 else n).toNat = 0 := by
    rcases lt_or_eq_of_le hn with h | h
    · simp [h]
    · simp [h]
  simp [Py_FindObjects, this]

/-- Witness for C10 at a concrete grid with a negative max_label. -/
theorem Py_FindObjects_nonpositive_max_label_witness :
    Py_FindObjects exampleGrid (-2) = [] :=
  Py_FindObjects_nonpositive_max_label exampleGrid (-2) (by decide)

end NdImage
